import Mathlib

/-!
Verification development for the perfume-shop backend (order checkout and
payment-reconciliation workflow).

The definitions below are a shallow embedding of the JavaScript controllers
(`createOrder`, `mpesaCallback`, `updateOrderStatus`) and the helper
`normalizeMpesaNumber`, together with the mongoose data model they operate on.
The persistent stores (MongoDB collections for products and orders) are
embedded as lists; `findOne`/`findById` become first-match searches and
`save`/`updateOne` become first-match in-place updates, which is faithful
because MongoDB document ids are unique.  Mongoose transaction semantics
(`startTransaction`/`commitTransaction`/`abortTransaction`) are embedded by
having `createOrder` return either the committed stores or an error that
leaves the stores untouched.  Fields of the schemas not used by this
workflow (images, descriptions, timestamps, admin users) are omitted.
Outbound WhatsApp notifications (`sendWhatsAppMessage`) swallow every error
and never modify the stores, so they do not appear in the state model.
-/

/-- Payment status enum of the order schema (`pending`, `paid`, `failed`). -/
inductive PaymentStatus where
  | pending
  | paid
  | failed
deriving DecidableEq, Repr

/-- Order status enum of the order schema
(`processing`, `shipped`, `delivered`, `cancelled`). -/
inductive OrderStatus where
  | processing
  | shipped
  | delivered
  | cancelled
deriving DecidableEq, Repr

/-- Payment method enum of the order schema
(`Mpesa`, `Emola`, `Cartao`, `Entrega`). -/
inductive PaymentMethod where
  | mpesa
  | emola
  | cartao
  | entrega
deriving DecidableEq, Repr

/-- Product document (catalog store).  Only the fields read or written by the
checkout and callback workflow are kept: `_id`, `name`, `price`, `stock`. -/
structure Product where
  id : Nat
  name : String
  price : Nat
  stock : Nat
deriving DecidableEq, Repr

/-- Customer information block of an order (`name`, `phone`, `address`),
all required by the schema. -/
structure CustomerInfo where
  name : String
  phone : String
  address : String
deriving DecidableEq, Repr

/-- One cart line of a checkout request body: `{ productId, quantity }`. -/
structure CartItem where
  productId : Nat
  quantity : Nat
deriving DecidableEq, Repr

/-- One persisted order line:
`{ product, quantity, price }` with the price snapshotted at purchase time. -/
structure LineItem where
  product : Nat
  quantity : Nat
  price : Nat
deriving DecidableEq, Repr

/-- The `mpesaDetails` sub-document of an order.  All fields are optional
strings in the schema. -/
structure MpesaDetails where
  thirdPartyReference : Option String
  conversationID : Option String
  responseCode : Option String
  responseDescription : Option String
deriving DecidableEq, Repr

/-- Order document (order store). -/
structure Order where
  id : Nat
  customerInfo : CustomerInfo
  products : List LineItem
  totalAmount : Nat
  paymentMethod : PaymentMethod
  paymentStatus : PaymentStatus
  orderStatus : OrderStatus
  mpesaDetails : MpesaDetails
  trackingId : String
deriving DecidableEq, Repr

/-- The two persistent stores touched by the workflow: the product catalog
and the order collection. -/
structure Store where
  catalog : List Product
  orders : List Order
deriving DecidableEq, Repr

/-- Checkout request body `{ customerInfo, products, paymentMethod }`;
each field may be absent, which the controller rejects up front. -/
structure CheckoutRequest where
  customerInfo : Option CustomerInfo
  products : Option (List CartItem)
  paymentMethod : Option String
deriving DecidableEq, Repr

/-- Payment-initiation request sent to the M-Pesa API
(`input_TransactionReference`, `input_CustomerMSISDN`, `input_Amount`,
`input_ThirdPartyReference`; the constant `input_ServiceProviderCode`
from the configuration is omitted). -/
structure MpesaRequest where
  transactionReference : String
  customerMSISDN : String
  amount : String
  thirdPartyReference : String
deriving DecidableEq, Repr

/-- Initial acknowledgment returned by the M-Pesa API
(`output_ConversationID`, `output_ResponseCode`, `output_ResponseDesc`). -/
structure MpesaAck where
  conversationID : String
  responseCode : String
  responseDescription : String
deriving DecidableEq, Repr

/-- Errors raised inside the `createOrder` try block.  Every one of them is
caught by the surrounding handler, which aborts the transaction. -/
inductive CheckoutError where
  | incompleteData
  | productNotFound (productId : Nat)
  | insufficientStock (productName : String)
  | saveValidation
  | invalidPhone
  | providerError
deriving DecidableEq, Repr

/-- Asynchronous M-Pesa callback body (`input_ThirdPartyReference`,
`input_ResultCode`, `input_ResultDesc`); each field may be absent. -/
structure Callback where
  thirdPartyReference : Option String
  resultCode : Option String
  resultDesc : Option String
deriving DecidableEq, Repr

/-- HTTP response of the callback handler: status code plus optional JSON
message body (`res.status(...).send()` has an empty body). -/
structure CbResponse where
  status : Nat
  body : Option String
deriving DecidableEq, Repr

/-- Embedding of `Product.findById` (and of the per-item lookup in the
checkout loop): first product whose `_id` matches. -/
def findProduct : List Product → Nat → Option Product
  | [], _ => none
  | p :: rest, pid => if p.id = pid then some p else findProduct rest pid

/-- Embedding of `product.stock = v; product.save()`: overwrite the stock of
the first (unique) product with the given id. -/
def setStock : List Product → Nat → Nat → List Product
  | [], _, _ => []
  | p :: rest, pid, v =>
      if p.id = pid then { p with stock := v } :: rest
      else p :: setStock rest pid v

/-- Embedding of `Product.updateOne({ _id }, { $inc: { stock: q } })`:
atomically add `q` to the stock of the first (unique) product with the given
id; a no-op when no product matches, exactly like `updateOne`. -/
def incStock : List Product → Nat → Nat → List Product
  | [], _, _ => []
  | p :: rest, pid, q =>
      if p.id = pid then { p with stock := p.stock + q } :: rest
      else p :: incStock rest pid q

/-- Embedding of the stock-restoration loop of the callback handler:
`for (const item of order.products) updateOne({$inc: {stock: item.quantity}})`. -/
def restoreStock : List Product → List LineItem → List Product
  | cat, [] => cat
  | cat, it :: rest => restoreStock (incStock cat it.product it.quantity) rest

/-- Embedding of `normalizeMpesaNumber`: strip non-digits, drop one leading
zero, accept a 9-digit number with carrier code 84 or 85 by prefixing 258,
accept a 12-digit number already starting with 258, otherwise throw
(embedded as `none`).  The JavaScript string operations (`replace(/\D/g)`,
`startsWith`, `substring(1)`, `length`) are embedded characterwise over the
string's character list. -/
def normalizeMpesaNumber (phone : String) : Option String :=
  let cleanPhone := phone.data.filter Char.isDigit
  let cleanPhone :=
    if cleanPhone.take 1 = ['0'] then cleanPhone.drop 1 else cleanPhone
  if cleanPhone.length = 9 ∧
      (cleanPhone.take 2 = ['8', '4'] ∨ cleanPhone.take 2 = ['8', '5']) then
    some (String.mk (['2', '5', '8'] ++ cleanPhone))
  else if cleanPhone.length = 12 ∧ cleanPhone.take 3 = ['2', '5', '8'] then
    some (String.mk cleanPhone)
  else
    none

/-- Embedding of the reference generation
`const thirdPartyReference = `PERFUME_${Date.now()}``; the current
millisecond clock value is passed in as `now`. -/
def mkThirdPartyReference (now : Nat) : String :=
  "PERFUME_" ++ toString now

/-- Mongoose enum validation of the `paymentMethod` path, applied when the
order document is saved. -/
def parsePaymentMethod (s : String) : Option PaymentMethod :=
  if s = "Mpesa" then some .mpesa
  else if s = "Emola" then some .emola
  else if s = "Cartao" then some .cartao
  else if s = "Entrega" then some .entrega
  else none

/-- Mongoose enum validation of the `orderStatus` path, applied when the
order document is saved. -/
def parseOrderStatus (s : String) : Option OrderStatus :=
  if s = "processing" then some .processing
  else if s = "shipped" then some .shipped
  else if s = "delivered" then some .delivered
  else if s = "cancelled" then some .cancelled
  else none

/-- Embedding of the per-line validation/reservation loop of `createOrder`:
look the product up (throw `productNotFound` when absent), check the stock
(throw `insufficientStock` when too low), accumulate the total, snapshot the
price into the order line, and decrement the stock via `product.save()`.
Returns the updated catalog, the order lines, and the accumulated total. -/
def processItems :
    List Product → List CartItem →
    Except CheckoutError (List Product × List LineItem × Nat)
  | catalog, [] => .ok (catalog, [], 0)
  | catalog, item :: rest =>
    match findProduct catalog item.productId with
    | none => .error (.productNotFound item.productId)
    | some p =>
      if p.stock < item.quantity then
        .error (.insufficientStock p.name)
      else
        match processItems (setStock catalog item.productId
            (p.stock - item.quantity)) rest with
        | .error e => .error e
        | .ok (catalog', det, tot) =>
          .ok (catalog',
               { product := p.id, quantity := item.quantity,
                 price := p.price } :: det,
               p.price * item.quantity + tot)

/-- Embedding of the `createOrder` controller.  `provider` is the external
M-Pesa API (`axios.post` on the configured URL), `now` the value of
`Date.now()` used for the reference, and `tid` the generated `trackingId`.
The result is the committed state of the two stores together with the
persisted order, or the error that made the handler abort the transaction
(in which case nothing is persisted).  Mongoose validation at `save` time is
embedded by rejecting empty required strings and unknown payment methods.
Post-commit steps (the WhatsApp notification and the HTTP response
marshalling) perform no store writes and are outside this state model. -/
def createOrder (provider : MpesaRequest → Except Unit MpesaAck) (now : Nat)
    (tid : String) (st : Store) (req : CheckoutRequest) :
    Except CheckoutError (Store × Order) :=
  match req.customerInfo, req.products, req.paymentMethod with
  | some ci, some items, some pm =>
    if pm = "" then .error .incompleteData
    else
      match processItems st.catalog items with
      | .error e => .error e
      | .ok (catalog', det, tot) =>
        if ci.name = "" ∨ ci.phone = "" ∨ ci.address = "" then
          .error .saveValidation
        else
          match parsePaymentMethod pm with
          | none => .error .saveValidation
          | some pmv =>
            let tpr := mkThirdPartyReference now
            let base : Order := {
              id := st.orders.length
              customerInfo := ci
              products := det
              totalAmount := tot
              paymentMethod := pmv
              paymentStatus := .pending
              orderStatus := .processing
              mpesaDetails := {
                thirdPartyReference := some tpr
                conversationID := none
                responseCode := none
                responseDescription := none }
              trackingId := tid }
            match pmv with
            | .mpesa =>
              match normalizeMpesaNumber ci.phone with
              | none => .error .invalidPhone
              | some msisdn =>
                match provider
                    { transactionReference := tpr
                      customerMSISDN := msisdn
                      amount := toString tot
                      thirdPartyReference := tpr } with
                | .error _ => .error .providerError
                | .ok ack =>
                  let ord := { base with mpesaDetails := {
                      base.mpesaDetails with
                        conversationID := some ack.conversationID
                        responseCode := some ack.responseCode
                        responseDescription := some ack.responseDescription } }
                  .ok ({ catalog := catalog',
                         orders := st.orders ++ [ord] }, ord)
            | _ =>
              let ord := { base with paymentStatus :=
                  if pmv = .entrega then .pending else .paid }
              .ok ({ catalog := catalog',
                     orders := st.orders ++ [ord] }, ord)
  | _, _, _ => .error .incompleteData

/-- State of the stores after a checkout request: the committed state on
success, the untouched state when the handler aborted the transaction. -/
def runCheckout (provider : MpesaRequest → Except Unit MpesaAck) (now : Nat)
    (tid : String) (st : Store) (req : CheckoutRequest) : Store :=
  match createOrder provider now tid st req with
  | .ok (st', _) => st'
  | .error _ => st

/-- Embedding of
`Order.findOne({ 'mpesaDetails.thirdPartyReference': ref })`. -/
def findOrder : List Order → String → Option Order
  | [], _ => none
  | o :: rest, ref =>
      if o.mpesaDetails.thirdPartyReference = some ref then some o
      else findOrder rest ref

/-- Embedding of mutating the order found by reference and calling
`order.save()`: rewrite the first (unique) matching document. -/
def updateFirstOrder : List Order → String → (Order → Order) → List Order
  | [], _, _ => []
  | o :: rest, ref, f =>
      if o.mpesaDetails.thirdPartyReference = some ref then f o :: rest
      else o :: updateFirstOrder rest ref f

/-- Embedding of mutating the order found by `_id` and calling
`order.save()`. -/
def updateFirstOrderById : List Order → Nat → (Order → Order) → List Order
  | [], _, _ => []
  | o :: rest, oid, f =>
      if o.id = oid then f o :: rest
      else o :: updateFirstOrderById rest oid f

/-- Field updates applied to the order by the callback handler: record
`resultCode`/`resultDesc`, then branch on the success sentinel `INS-0`
(paid/processing on success, failed/cancelled otherwise). -/
def applyCallback (o : Order) (cb : Callback) : Order :=
  let md := { o.mpesaDetails with
      responseCode := cb.resultCode
      responseDescription := cb.resultDesc }
  if cb.resultCode = some "INS-0" then
    { o with mpesaDetails := md, paymentStatus := .paid,
             orderStatus := .processing }
  else
    { o with mpesaDetails := md, paymentStatus := .failed,
             orderStatus := .cancelled }

/-- Embedding of the `mpesaCallback` controller: 400 when the reference is
missing (or empty, which is falsy in JavaScript), 404 with an empty body
when no order carries the reference, otherwise update the order, restore
the stock on a non-success result code, and answer 200. -/
def mpesaCallback (st : Store) (cb : Callback) : CbResponse × Store :=
  match cb.thirdPartyReference with
  | none =>
    ({ status := 400,
       body := some "ThirdPartyReference nao encontrado no callback." }, st)
  | some tpr =>
    if tpr = "" then
      ({ status := 400,
         body := some "ThirdPartyReference nao encontrado no callback." }, st)
    else
      match findOrder st.orders tpr with
      | none => ({ status := 404, body := none }, st)
      | some ord =>
        if cb.resultCode = some "INS-0" then
          ({ status := 200, body := some "Callback processado." },
           { st with orders :=
               updateFirstOrder st.orders tpr (fun o => applyCallback o cb) })
        else
          ({ status := 200, body := some "Callback processado." },
           { catalog := restoreStock st.catalog ord.products,
             orders :=
               updateFirstOrder st.orders tpr (fun o => applyCallback o cb) })

/-- Embedding of `Order.findById`. -/
def findOrderById : List Order → Nat → Option Order
  | [], _ => none
  | o :: rest, oid => if o.id = oid then some o else findOrderById rest oid

/-- Embedding of the `updateOrderStatus` admin controller: 404 when the id
resolves to no order, 500 when the new status fails the schema enum
validation at save time (store untouched), otherwise 200 with the order
status rewritten. -/
def updateOrderStatus (st : Store) (oid : Nat) (newStatus : String) :
    Nat × Store :=
  match findOrderById st.orders oid with
  | none => (404, st)
  | some _ =>
    match parseOrderStatus newStatus with
    | none => (500, st)
    | some os =>
      (200, { st with
              orders := updateFirstOrderById st.orders oid
                  (fun o => { o with orderStatus := os }) })

/-- Total stock held in the catalog. -/
def totalStock (catalog : List Product) : Nat :=
  (catalog.map Product.stock).sum

/-- Stock of the product with the given id (0 when absent). -/
def stockOf (catalog : List Product) (pid : Nat) : Nat :=
  ((findProduct catalog pid).map Product.stock).getD 0

/-- Total quantity requested across a cart. -/
def sumQty (items : List CartItem) : Nat :=
  (items.map CartItem.quantity).sum

/-- Sum of `price * quantity` across order lines. -/
def lineSum (items : List LineItem) : Nat :=
  (items.map (fun li => li.price * li.quantity)).sum

/-- Total quantity a list of order lines attributes to one product id. -/
def lineQty (items : List LineItem) (pid : Nat) : Nat :=
  (items.map (fun li => if li.product = pid then li.quantity else 0)).sum


/-! ### Helper lemmas -/

/-- Setting the stock of the product found at `pid` lowers the catalog total
by the size of the decrement. -/
theorem totalStock_setStock (cat : List Product) (pid q : Nat) (p : Product)
    (hf : findProduct cat pid = some p) (hq : q ≤ p.stock) :
    totalStock (setStock cat pid (p.stock - q)) + q = totalStock cat := by
  induction cat with
  | nil => simp [findProduct] at hf
  | cons hd tl ih =>
    rw [findProduct] at hf
    rw [setStock]
    by_cases h : hd.id = pid
    · rw [if_pos h] at hf
      rw [if_pos h]
      obtain rfl : hd = p := by injection hf
      simp only [totalStock, List.map_cons, List.sum_cons]
      omega
    · rw [if_neg h] at hf
      rw [if_neg h]
      have h2 := ih hf
      simp only [totalStock, List.map_cons, List.sum_cons] at h2 ⊢
      omega

theorem processItems_stock (items : List CartItem) :
    ∀ (cat cat' : List Product) (det : List LineItem) (tot : Nat),
    processItems cat items = .ok (cat', det, tot) →
    totalStock cat' + sumQty items = totalStock cat := by
  induction items with
  | nil =>
    intro cat cat' det tot h
    rw [processItems] at h
    injection h with h
    injection h with h1 h2
    injection h2 with h3 h4
    subst h1
    simp [sumQty]
  | cons it rest ih =>
    intro cat cat' det tot h
    rw [processItems] at h
    cases hf : findProduct cat it.productId with
    | none => rw [hf] at h; exact absurd h (by simp)
    | some p =>
      rw [hf] at h
      simp only [] at h
      by_cases hs : p.stock < it.quantity
      · rw [if_pos hs] at h; exact absurd h (by simp)
      · rw [if_neg hs] at h
        cases hr : processItems (setStock cat it.productId
            (p.stock - it.quantity)) rest with
        | error e => rw [hr] at h; exact absurd h (by simp)
        | ok out =>
          obtain ⟨cat'', det', tot'⟩ := out
          rw [hr] at h
          injection h with h
          injection h with h1 h2
          subst h1
          have hrec := ih _ _ _ _ hr
          have hset := totalStock_setStock cat it.productId it.quantity p hf
            (Nat.le_of_not_lt hs)
          simp only [sumQty, List.map_cons, List.sum_cons] at hrec hset ⊢
          omega

theorem processItems_total (items : List CartItem) :
    ∀ (cat cat' : List Product) (det : List LineItem) (tot : Nat),
    processItems cat items = .ok (cat', det, tot) →
    tot = lineSum det := by
  induction items with
  | nil =>
    intro cat cat' det tot h
    rw [processItems] at h
    injection h with h
    injection h with h1 h2
    injection h2 with h3 h4
    subst h3
    subst h4
    simp [lineSum]
  | cons it rest ih =>
    intro cat cat' det tot h
    rw [processItems] at h
    cases hf : findProduct cat it.productId with
    | none => rw [hf] at h; exact absurd h (by simp)
    | some p =>
      rw [hf] at h
      simp only [] at h
      by_cases hs : p.stock < it.quantity
      · rw [if_pos hs] at h; exact absurd h (by simp)
      · rw [if_neg hs] at h
        cases hr : processItems (setStock cat it.productId
            (p.stock - it.quantity)) rest with
        | error e => rw [hr] at h; exact absurd h (by simp)
        | ok out =>
          obtain ⟨cat'', det', tot'⟩ := out
          rw [hr] at h
          injection h with h
          injection h with h1 h2
          injection h2 with h3 h4
          subst h3
          subst h4
          have hrec := ih _ _ _ _ hr
          simp only [lineSum, List.map_cons, List.sum_cons] at hrec ⊢
          omega

theorem stockOf_incStock (cat : List Product) (pid q pid' : Nat) :
    stockOf (incStock cat pid q) pid' =
      stockOf cat pid' +
        (if pid' = pid ∧ (findProduct cat pid').isSome = true then q else 0) := by
  induction cat with
  | nil => simp [incStock, stockOf, findProduct]
  | cons hd tl ih =>
    rw [incStock]
    by_cases h1 : hd.id = pid
    · by_cases h2 : hd.id = pid'
      · have hpp : pid' = pid := by omega
        simp [stockOf, findProduct, h1, h2, hpp]
      · have hpp : ¬ pid' = pid := by omega
        simp [stockOf, findProduct, if_pos h1, if_neg h2, hpp]
    · by_cases h2 : hd.id = pid'
      · have hpp : ¬ pid' = pid := by omega
        simp [stockOf, findProduct, if_neg h1, if_pos h2, hpp]
      · simp only [if_neg h1]
        simp only [stockOf, findProduct, if_neg h2] at ih ⊢
        rw [ih]

theorem findProduct_incStock_isSome (cat : List Product) (pid q pid' : Nat) :
    (findProduct (incStock cat pid q) pid').isSome =
      (findProduct cat pid').isSome := by
  induction cat with
  | nil => simp [incStock]
  | cons hd tl ih =>
    rw [incStock]
    by_cases h1 : hd.id = pid
    · rw [if_pos h1]
      simp only [findProduct]
      by_cases h2 : hd.id = pid'
      · simp [h2]
      · simp [h2]
    · rw [if_neg h1]
      simp only [findProduct]
      by_cases h2 : hd.id = pid'
      · simp [h2]
      · simp [h2, ih]

theorem stockOf_restoreStock (items : List LineItem) :
    ∀ (cat : List Product) (pid : Nat),
    (findProduct cat pid).isSome = true →
    stockOf (restoreStock cat items) pid = stockOf cat pid + lineQty items pid := by
  induction items with
  | nil =>
    intro cat pid _
    simp [restoreStock, lineQty]
  | cons it rest ih =>
    intro cat pid hp
    rw [restoreStock]
    have hp' : (findProduct (incStock cat it.product it.quantity) pid).isSome = true := by
      rw [findProduct_incStock_isSome]
      exact hp
    rw [ih _ _ hp']
    rw [stockOf_incStock]
    simp only [lineQty, List.map_cons, List.sum_cons]
    by_cases hq : it.product = pid
    · rw [if_pos ⟨hq.symm, hp⟩, if_pos hq]
      omega
    · rw [if_neg (fun hc => hq hc.1.symm), if_neg hq]
      omega

theorem applyCallback_ref (o : Order) (cb : Callback) :
    (applyCallback o cb).mpesaDetails.thirdPartyReference =
      o.mpesaDetails.thirdPartyReference := by
  by_cases h : cb.resultCode = some "INS-0" <;> simp [applyCallback, h]

theorem applyCallback_products (o : Order) (cb : Callback) :
    (applyCallback o cb).products = o.products := by
  by_cases h : cb.resultCode = some "INS-0" <;> simp [applyCallback, h]

theorem applyCallback_totalAmount (o : Order) (cb : Callback) :
    (applyCallback o cb).totalAmount = o.totalAmount := by
  by_cases h : cb.resultCode = some "INS-0" <;> simp [applyCallback, h]

theorem applyCallback_idem (o : Order) (cb : Callback) :
    applyCallback (applyCallback o cb) cb = applyCallback o cb := by
  by_cases h : cb.resultCode = some "INS-0" <;> simp [applyCallback, h]

theorem findOrder_updateFirstOrder (l : List Order) (tpr : String)
    (f : Order → Order) (o : Order)
    (hf : ∀ x, (f x).mpesaDetails.thirdPartyReference =
        x.mpesaDetails.thirdPartyReference)
    (h : findOrder l tpr = some o) :
    findOrder (updateFirstOrder l tpr f) tpr = some (f o) := by
  induction l with
  | nil => simp [findOrder] at h
  | cons hd tl ih =>
    rw [findOrder] at h
    rw [updateFirstOrder]
    by_cases hc : hd.mpesaDetails.thirdPartyReference = some tpr
    · rw [if_pos hc] at h
      injection h with h
      subst h
      rw [if_pos hc, findOrder, if_pos (by rw [hf]; exact hc)]
    · rw [if_neg hc] at h
      rw [if_neg hc, findOrder, if_neg hc]
      exact ih h

theorem updateFirstOrder_idem (l : List Order) (tpr : String)
    (f : Order → Order)
    (hf : ∀ x, (f x).mpesaDetails.thirdPartyReference =
        x.mpesaDetails.thirdPartyReference)
    (hi : ∀ x, f (f x) = f x) :
    updateFirstOrder (updateFirstOrder l tpr f) tpr f =
      updateFirstOrder l tpr f := by
  induction l with
  | nil => simp [updateFirstOrder]
  | cons hd tl ih =>
    rw [updateFirstOrder]
    by_cases hc : hd.mpesaDetails.thirdPartyReference = some tpr
    · rw [if_pos hc, updateFirstOrder, if_pos (by rw [hf]; exact hc), hi]
    · rw [if_neg hc, updateFirstOrder, if_neg hc, ih]

theorem updateFirstOrder_map {α : Type} (g : Order → α) (l : List Order)
    (tpr : String) (f : Order → Order) (hf : ∀ x, g (f x) = g x) :
    (updateFirstOrder l tpr f).map g = l.map g := by
  induction l with
  | nil => simp [updateFirstOrder]
  | cons hd tl ih =>
    rw [updateFirstOrder]
    by_cases hc : hd.mpesaDetails.thirdPartyReference = some tpr
    · rw [if_pos hc]
      simp [hf]
    · rw [if_neg hc]
      simp only [List.map_cons]
      rw [ih]

theorem updateFirstOrderById_map {α : Type} (g : Order → α) (l : List Order)
    (oid : Nat) (f : Order → Order) (hf : ∀ x, g (f x) = g x) :
    (updateFirstOrderById l oid f).map g = l.map g := by
  induction l with
  | nil => simp [updateFirstOrderById]
  | cons hd tl ih =>
    rw [updateFirstOrderById]
    by_cases hc : hd.id = oid
    · rw [if_pos hc]
      simp [hf]
    · rw [if_neg hc]
      simp only [List.map_cons]
      rw [ih]

theorem createOrder_ok_elim {provider : MpesaRequest → Except Unit MpesaAck}
    {now : Nat} {tid : String} {st : Store} {req : CheckoutRequest}
    {st' : Store} {ord : Order}
    (h : createOrder provider now tid st req = .ok (st', ord)) :
    ∃ items det tot, req.products = some items ∧
      processItems st.catalog items = .ok (st'.catalog, det, tot) ∧
      st'.orders = st.orders ++ [ord] ∧
      ord.products = det ∧ ord.totalAmount = tot := by
  obtain ⟨oci, oitems, opm⟩ := req
  cases oci with
  | none => exact absurd h (by simp [createOrder])
  | some ci =>
  cases oitems with
  | none => exact absurd h (by simp [createOrder])
  | some items =>
  cases opm with
  | none => exact absurd h (by simp [createOrder])
  | some pm =>
  simp only [createOrder] at h
  by_cases hpm : pm = ""
  · rw [if_pos hpm] at h
    exact absurd h (by simp)
  · rw [if_neg hpm] at h
    cases hpi : processItems st.catalog items with
    | error e => rw [hpi] at h; exact absurd h (by simp)
    | ok out =>
      obtain ⟨cat', det, tot⟩ := out
      rw [hpi] at h
      simp only [] at h
      by_cases hci : ci.name = "" ∨ ci.phone = "" ∨ ci.address = ""
      · rw [if_pos hci] at h
        exact absurd h (by simp)
      · rw [if_neg hci] at h
        cases hpp : parsePaymentMethod pm with
        | none => rw [hpp] at h; exact absurd h (by simp)
        | some pmv =>
          rw [hpp] at h
          simp only [] at h
          cases pmv with
          | mpesa =>
            cases hn : normalizeMpesaNumber ci.phone with
            | none => rw [hn] at h; exact absurd h (by simp)
            | some msisdn =>
              rw [hn] at h
              simp only [] at h
              cases hpr : provider
                  { transactionReference := mkThirdPartyReference now
                    customerMSISDN := msisdn
                    amount := toString tot
                    thirdPartyReference := mkThirdPartyReference now } with
              | error e => rw [hpr] at h; exact absurd h (by simp)
              | ok ack =>
                rw [hpr] at h
                simp only [] at h
                injection h with h
                injection h with hA hB
                subst hB
                subst hA
                exact ⟨items, det, tot, rfl, hpi, rfl, rfl, rfl⟩
          | emola =>
            injection h with h
            injection h with hA hB
            subst hB
            subst hA
            exact ⟨items, det, tot, rfl, hpi, rfl, rfl, rfl⟩
          | cartao =>
            injection h with h
            injection h with hA hB
            subst hB
            subst hA
            exact ⟨items, det, tot, rfl, hpi, rfl, rfl, rfl⟩
          | entrega =>
            injection h with h
            injection h with hA hB
            subst hB
            subst hA
            exact ⟨items, det, tot, rfl, hpi, rfl, rfl, rfl⟩

/-! ### Concrete fixtures used by witnesses and counterexamples -/

/-- Provider stub that rejects every initiation request. -/
def prFail : MpesaRequest → Except Unit MpesaAck := fun _ => .error ()

/-- Provider stub that acknowledges every initiation request. -/
def prOk : MpesaRequest → Except Unit MpesaAck := fun _ =>
  .ok { conversationID := "AG_1", responseCode := "INS-0",
        responseDescription := "Accepted" }

/-- Sample customer with a valid M-Pesa phone number. -/
def ciW : CustomerInfo := { name := "Ana", phone := "841234567", address := "Maputo" }

/-- Sample store: one product, price 100, stock 5, no orders. -/
def shopW : Store :=
  { catalog := [{ id := 1, name := "Perfume A", price := 100, stock := 5 }],
    orders := [] }

/-- Sample cart: two units of product 1. -/
def cartW : List CartItem := [{ productId := 1, quantity := 2 }]

/-- Sample cash-on-delivery checkout request. -/
def reqW : CheckoutRequest :=
  { customerInfo := some ciW, products := some cartW,
    paymentMethod := some "Entrega" }

/-- Pending mobile-money order correlated to reference REF1. -/
def ordP : Order where
  id := 0
  customerInfo := ciW
  products := [{ product := 1, quantity := 2, price := 100 }]
  totalAmount := 200
  paymentMethod := .mpesa
  paymentStatus := .pending
  orderStatus := .processing
  mpesaDetails :=
    { thirdPartyReference := some "REF1", conversationID := some "AG_1",
      responseCode := some "INS-0", responseDescription := some "Accepted" }
  trackingId := "t1"

/-- Store holding the pending order `ordP` and its product with stock 3. -/
def shopP : Store :=
  { catalog := [{ id := 1, name := "Perfume A", price := 100, stock := 3 }],
    orders := [ordP] }

/-- Failure-coded callback for reference REF1. -/
def cbFail : Callback :=
  { thirdPartyReference := some "REF1", resultCode := some "INS-9",
    resultDesc := some "Saldo insuficiente" }

/-- Success-coded callback for reference REF1. -/
def cbOk : Callback :=
  { thirdPartyReference := some "REF1", resultCode := some "INS-0",
    resultDesc := some "Sucesso" }

/-! ### Specification-side model for the phone-normalization rule -/

/-- Country code the spec's normalization rule prefixes. -/
def countryCode : List Char := ['2', '5', '8']

/-- Accepted carrier codes of the spec's normalization rule. -/
def carrierCodes : List (List Char) := [['8', '4'], ['8', '5']]

/-- Restatement of the spec's normalization rule, for comparison with the
source-side `normalizeMpesaNumber`: strip all non-digit characters; drop one
leading zero; prefix the country code to a 9-digit result whose first two
digits belong to the accepted carrier set; accept a 12-digit result already
carrying the country code; fail otherwise. -/
def normalizePhoneSpec (phone : String) : Option String :=
  let ds := phone.data.filter Char.isDigit
  let ds := if ds.take 1 = ['0'] then ds.drop 1 else ds
  if ds.length = 9 ∧ ds.take 2 ∈ carrierCodes then
    some (String.mk (countryCode ++ ds))
  else if ds.length = 12 ∧ ds.take 3 = countryCode then
    some (String.mk ds)
  else none

/-- C5: phone normalization strips non-digits, drops one leading zero,
prefixes the country code to a 9-digit number with an accepted carrier
code, accepts a 12-digit number already carrying the country code, and
rejects every other shape; on the spec's examples it maps "084 123 4567"
to "258841234567", leaves "258851234567" unchanged, and rejects "12345". -/
theorem c5_phone_normalization :
    (∀ s, normalizeMpesaNumber s = normalizePhoneSpec s) ∧
    normalizeMpesaNumber "084 123 4567" = some "258841234567" ∧
    normalizeMpesaNumber "258851234567" = some "258851234567" ∧
    normalizeMpesaNumber "12345" = none := by
  refine ⟨fun s => ?_, by decide, by decide, by decide⟩
  simp [normalizeMpesaNumber, normalizePhoneSpec, carrierCodes, countryCode]

/-- C8 (code bug): the generated `thirdPartyReference` is only as unique as
the millisecond clock.  Two checkout executions that observe the same
`Date.now()` value persist two distinct orders carrying the same reference,
although the source comments call the reference unique. -/
theorem c8_reference_collision :
    ∃ st1 o1 st2 o2,
      createOrder prFail 1000 "ta" shopW reqW = .ok (st1, o1) ∧
      createOrder prFail 1000 "tb" st1 reqW = .ok (st2, o2) ∧
      o1.mpesaDetails.thirdPartyReference =
        o2.mpesaDetails.thirdPartyReference ∧
      o1.trackingId ≠ o2.trackingId ∧
      st2.orders.length = 2 := by
  refine ⟨_, _, _, _, rfl, rfl, rfl, ?_, rfl⟩
  decide

/-- C1: checkout is atomic.  Every error path of `createOrder` leaves both
stores exactly as before the request (the transaction is aborted), and on
success the total stock removed from the catalog equals the total requested
quantity and exactly the one new order is appended to the order store. -/
theorem c1_checkout_atomicity (provider : MpesaRequest → Except Unit MpesaAck)
    (now : Nat) (tid : String) (st : Store) (req : CheckoutRequest) :
    (∀ e, createOrder provider now tid st req = .error e →
        runCheckout provider now tid st req = st) ∧
    (∀ st' ord items, createOrder provider now tid st req = .ok (st', ord) →
        req.products = some items →
        totalStock st'.catalog + sumQty items = totalStock st.catalog ∧
        st'.orders = st.orders ++ [ord]) := by
  constructor
  · intro e h
    simp [runCheckout, h]
  · intro st' ord items h hitems
    obtain ⟨items', det, tot, hitems', hpi, horders, -, -⟩ := createOrder_ok_elim h
    rw [hitems] at hitems'
    injection hitems' with hii
    subst hii
    exact ⟨processItems_stock _ _ _ _ _ hpi, horders⟩

/-- Checkout request asking for more units than the sample stock holds. -/
def reqBig : CheckoutRequest :=
  { customerInfo := some ciW,
    products := some [{ productId := 1, quantity := 9 }],
    paymentMethod := some "Entrega" }

/-- Order persisted by the sample cash checkout `reqW` on `shopW`. -/
def ordW : Order where
  id := 0
  customerInfo := ciW
  products := [{ product := 1, quantity := 2, price := 100 }]
  totalAmount := 200
  paymentMethod := .entrega
  paymentStatus := .pending
  orderStatus := .processing
  mpesaDetails :=
    { thirdPartyReference := some "PERFUME_5", conversationID := none,
      responseCode := none, responseDescription := none }
  trackingId := "t1"

/-- Store state after the sample cash checkout `reqW` on `shopW`. -/
def shopW1 : Store :=
  { catalog := [{ id := 1, name := "Perfume A", price := 100, stock := 3 }],
    orders := [ordW] }

/-- Witness for C1: a checkout requesting more than the available stock
fails and leaves the store untouched, and a successful cash checkout on the
sample store removes exactly the requested quantity. -/
theorem c1_checkout_atomicity_witness :
    (createOrder prFail 5 "t1" shopW reqBig =
        .error (.insufficientStock "Perfume A") ∧
      runCheckout prFail 5 "t1" shopW reqBig = shopW) ∧
    (createOrder prFail 5 "t1" shopW reqW = .ok (shopW1, ordW) ∧
      totalStock shopW1.catalog + sumQty cartW = totalStock shopW.catalog ∧
      shopW1.orders = shopW.orders ++ [ordW]) := by
  constructor
  · exact ⟨rfl, (c1_checkout_atomicity prFail 5 "t1" shopW reqBig).1 _ rfl⟩
  · exact ⟨rfl,
      (c1_checkout_atomicity prFail 5 "t1" shopW reqW).2 shopW1 ordW cartW rfl rfl⟩

/-- C9: for every persisted order the total equals the sum of snapshotted
price times quantity over its lines, and neither the payment callback nor
the administrative status update changes any order's total or lines. -/
theorem c9_total_amount_invariant :
    (∀ provider now tid st req st' ord,
        createOrder provider now tid st req = .ok (st', ord) →
        ord.totalAmount = lineSum ord.products) ∧
    (∀ st cb,
        ((mpesaCallback st cb).2.orders.map
            fun o => (o.totalAmount, o.products)) =
          st.orders.map fun o => (o.totalAmount, o.products)) ∧
    (∀ st oid s,
        ((updateOrderStatus st oid s).2.orders.map
            fun o => (o.totalAmount, o.products)) =
          st.orders.map fun o => (o.totalAmount, o.products)) := by
  refine ⟨?_, ?_, ?_⟩
  · intro provider now tid st req st' ord h
    obtain ⟨items, det, tot, -, hpi, -, hprod, htot⟩ := createOrder_ok_elim h
    rw [htot, hprod]
    exact processItems_total _ _ _ _ _ hpi
  · intro st cb
    cases hr : cb.thirdPartyReference with
    | none => simp [mpesaCallback, hr]
    | some tpr =>
      by_cases he : tpr = ""
      · simp [mpesaCallback, hr, he]
      · cases hfind : findOrder st.orders tpr with
        | none => simp [mpesaCallback, hr, he, hfind]
        | some ord =>
          have hpres : ∀ x : Order,
              ((applyCallback x cb).totalAmount,
               (applyCallback x cb).products) = (x.totalAmount, x.products) := by
            intro x
            rw [applyCallback_totalAmount, applyCallback_products]
          by_cases hc : cb.resultCode = some "INS-0"
          · simp only [mpesaCallback, hr, he, hfind, hc]
            simp only [if_neg he, ite_true]
            exact updateFirstOrder_map _ _ _ _ hpres
          · simp only [mpesaCallback, hr, he, hfind, hc]
            simp only [if_neg he, ite_false]
            exact updateFirstOrder_map _ _ _ _ hpres
  · intro st oid s
    cases hf : findOrderById st.orders oid with
    | none => simp [updateOrderStatus, hf]
    | some o =>
      cases hp : parseOrderStatus s with
      | none => simp [updateOrderStatus, hf, hp]
      | some os =>
        simp only [updateOrderStatus, hf, hp]
        exact updateFirstOrderById_map _ _ _ _ (fun x => rfl)

/-- Witness for C9: the sample cash checkout persists an order whose total
200 equals the sum of price times quantity over its single line. -/
theorem c9_total_amount_invariant_witness :
    createOrder prFail 5 "t1" shopW reqW = .ok (shopW1, ordW) ∧
    ordW.totalAmount = lineSum ordW.products :=
  ⟨rfl, c9_total_amount_invariant.1 prFail 5 "t1" shopW reqW shopW1 ordW rfl⟩

/-- Order document that a checkout of a present-but-empty cart persists. -/
def emptyCartOrder (now : Nat) (tid : String) (st : Store)
    (ci : CustomerInfo) (pmv : PaymentMethod) : Order where
  id := st.orders.length
  customerInfo := ci
  products := []
  totalAmount := 0
  paymentMethod := pmv
  paymentStatus := if pmv = .entrega then .pending else .paid
  orderStatus := .processing
  mpesaDetails :=
    { thirdPartyReference := some (mkThirdPartyReference now),
      conversationID := none, responseCode := none,
      responseDescription := none }
  trackingId := tid

/-- C10: a present-but-empty product list passes the input validation (an
empty array is truthy), so with valid customer data and a valid
non-mobile-money payment method the checkout persists an order with zero
lines and total 0 instead of rejecting the cart. -/
theorem c10_empty_cart (provider : MpesaRequest → Except Unit MpesaAck)
    (now : Nat) (tid : String) (st : Store) (ci : CustomerInfo)
    (pm : String) (pmv : PaymentMethod)
    (hparse : parsePaymentMethod pm = some pmv) (hm : pmv ≠ .mpesa)
    (hne : pm ≠ "") (hname : ci.name ≠ "") (hphone : ci.phone ≠ "")
    (haddr : ci.address ≠ "") :
    createOrder provider now tid st
        { customerInfo := some ci, products := some [],
          paymentMethod := some pm } =
      .ok ({ catalog := st.catalog,
             orders := st.orders ++ [emptyCartOrder now tid st ci pmv] },
           emptyCartOrder now tid st ci pmv) ∧
    (emptyCartOrder now tid st ci pmv).products = [] ∧
    (emptyCartOrder now tid st ci pmv).totalAmount = 0 := by
  refine ⟨?_, rfl, rfl⟩
  simp only [createOrder]
  rw [if_neg hne]
  have hpi : processItems st.catalog [] = .ok (st.catalog, [], 0) := rfl
  rw [hpi]
  simp only []
  rw [if_neg (by simp [hname, hphone, haddr])]
  rw [hparse]
  simp only []
  cases pmv with
  | mpesa => exact absurd rfl hm
  | emola => rfl
  | cartao => rfl
  | entrega => rfl

/-- Witness for C10: an empty cart with cash-on-delivery on the sample
store is accepted and persists a zero-line order with total 0. -/
theorem c10_empty_cart_witness :
    createOrder prFail 7 "t2" shopW
        { customerInfo := some ciW, products := some [],
          paymentMethod := some "Entrega" } =
      .ok ({ catalog := shopW.catalog,
             orders := shopW.orders ++
               [emptyCartOrder 7 "t2" shopW ciW .entrega] },
           emptyCartOrder 7 "t2" shopW ciW .entrega) ∧
    (emptyCartOrder 7 "t2" shopW ciW .entrega).products = [] ∧
    (emptyCartOrder 7 "t2" shopW ciW .entrega).totalAmount = 0 :=
  c10_empty_cart prFail 7 "t2" shopW ciW "Entrega" .entrega rfl
    (by decide) (by decide) (by decide) (by decide) (by decide)

/-- Sample checkout request paying with Emola. -/
def reqEmola : CheckoutRequest :=
  { customerInfo := some ciW, products := some cartW,
    paymentMethod := some "Emola" }

/-- Order persisted by the sample Emola checkout on `shopW`. -/
def ordEmola : Order where
  id := 0
  customerInfo := ciW
  products := [{ product := 1, quantity := 2, price := 100 }]
  totalAmount := 200
  paymentMethod := .emola
  paymentStatus := .paid
  orderStatus := .processing
  mpesaDetails :=
    { thirdPartyReference := some "PERFUME_5", conversationID := none,
      responseCode := none, responseDescription := none }
  trackingId := "t1"

/-- Store state after the sample Emola checkout on `shopW`. -/
def shopEmola1 : Store :=
  { catalog := [{ id := 1, name := "Perfume A", price := 100, stock := 3 }],
    orders := [ordEmola] }

/-- Counterexample to C4: an Emola checkout does not follow the
mobile-money path.  Even with a provider that rejects every initiation
request the checkout succeeds (so no initiation request was submitted), no
acknowledgment fields are persisted, and the persisted order's
paymentStatus is `paid`, not `pending`, when the checkout returns. -/
theorem c4_emola_cex :
    createOrder prFail 5 "t1" shopW reqEmola = .ok (shopEmola1, ordEmola) ∧
    ordEmola.paymentStatus = .paid ∧
    ordEmola.paymentStatus ≠ .pending ∧
    ordEmola.mpesaDetails.conversationID = none := by
  exact ⟨rfl, rfl, by decide, rfl⟩

/-- Order document persisted by a successful M-Pesa checkout. -/
def mpesaCheckoutOrder (now : Nat) (tid : String) (st : Store)
    (ci : CustomerInfo) (det : List LineItem) (tot : Nat)
    (ack : MpesaAck) : Order where
  id := st.orders.length
  customerInfo := ci
  products := det
  totalAmount := tot
  paymentMethod := .mpesa
  paymentStatus := .pending
  orderStatus := .processing
  mpesaDetails :=
    { thirdPartyReference := some (mkThirdPartyReference now),
      conversationID := some ack.conversationID,
      responseCode := some ack.responseCode,
      responseDescription := some ack.responseDescription }
  trackingId := tid

/-- C4 (amended): only the Mpesa payment method follows the mobile-money
path.  For an Mpesa checkout the customer's phone is normalized (the
checkout fails with the invalid-phone error when it cannot be), the
initiation request submitted to the provider carries the generated
reference, the order total as amount, and the normalized phone, the
provider's acknowledgment fields are persisted onto the order, and the
order's paymentStatus is still `pending` when the checkout returns.  Emola
checkouts skip this path entirely and are marked paid immediately. -/
theorem c4_mpesa_flow_amended (provider : MpesaRequest → Except Unit MpesaAck)
    (now : Nat) (tid : String) (st : Store) (ci : CustomerInfo)
    (items : List CartItem) (cat' : List Product) (det : List LineItem)
    (tot : Nat)
    (hname : ci.name ≠ "") (hphone : ci.phone ≠ "") (haddr : ci.address ≠ "")
    (hpi : processItems st.catalog items = .ok (cat', det, tot)) :
    (normalizeMpesaNumber ci.phone = none →
      createOrder provider now tid st
          { customerInfo := some ci, products := some items,
            paymentMethod := some "Mpesa" } = .error .invalidPhone) ∧
    (∀ msisdn ack, normalizeMpesaNumber ci.phone = some msisdn →
      provider { transactionReference := mkThirdPartyReference now,
                 customerMSISDN := msisdn, amount := toString tot,
                 thirdPartyReference := mkThirdPartyReference now } =
          .ok ack →
      createOrder provider now tid st
          { customerInfo := some ci, products := some items,
            paymentMethod := some "Mpesa" } =
        .ok ({ catalog := cat',
               orders := st.orders ++
                 [mpesaCheckoutOrder now tid st ci det tot ack] },
             mpesaCheckoutOrder now tid st ci det tot ack) ∧
      (mpesaCheckoutOrder now tid st ci det tot ack).paymentStatus =
        .pending) := by
  constructor
  · intro hn
    simp only [createOrder]
    rw [if_neg (by decide : ¬ ("Mpesa" : String) = "")]
    rw [hpi]
    simp only []
    rw [if_neg (by simp [hname, hphone, haddr])]
    rw [show parsePaymentMethod "Mpesa" = some .mpesa from rfl]
    simp only []
    rw [hn]
  · intro msisdn ack hn hpr
    refine ⟨?_, rfl⟩
    simp only [createOrder]
    rw [if_neg (by decide : ¬ ("Mpesa" : String) = "")]
    rw [hpi]
    simp only []
    rw [if_neg (by simp [hname, hphone, haddr])]
    rw [show parsePaymentMethod "Mpesa" = some .mpesa from rfl]
    simp only []
    rw [hn]
    simp only []
    rw [hpr]
    rfl

/-- Customer whose phone cannot be normalized for M-Pesa. -/
def ciBad : CustomerInfo := { name := "Bo", phone := "12345", address := "X" }

/-- Witness for the amended C4: an Mpesa checkout with phone 841234567 on
the sample store submits the normalized phone 258841234567 and amount 200,
persists the acknowledgment fields, and stays pending; a phone of 12345
makes the checkout fail with the invalid-phone error. -/
theorem c4_mpesa_flow_amended_witness :
    (normalizeMpesaNumber ciW.phone = some "258841234567" ∧
      createOrder prOk 5 "t1" shopW
          { customerInfo := some ciW, products := some cartW,
            paymentMethod := some "Mpesa" } =
        .ok ({ catalog :=
                 [{ id := 1, name := "Perfume A", price := 100, stock := 3 }],
               orders := shopW.orders ++
                 [mpesaCheckoutOrder 5 "t1" shopW ciW
                    [{ product := 1, quantity := 2, price := 100 }] 200
                    { conversationID := "AG_1", responseCode := "INS-0",
                      responseDescription := "Accepted" }] },
             mpesaCheckoutOrder 5 "t1" shopW ciW
               [{ product := 1, quantity := 2, price := 100 }] 200
               { conversationID := "AG_1", responseCode := "INS-0",
                 responseDescription := "Accepted" }) ∧
      (mpesaCheckoutOrder 5 "t1" shopW ciW
          [{ product := 1, quantity := 2, price := 100 }] 200
          { conversationID := "AG_1", responseCode := "INS-0",
            responseDescription := "Accepted" }).paymentStatus = .pending) ∧
    createOrder prOk 9 "t3" shopW
        { customerInfo := some ciBad, products := some cartW,
          paymentMethod := some "Mpesa" } = .error .invalidPhone := by
  constructor
  · refine ⟨by decide, ?_⟩
    exact (c4_mpesa_flow_amended prOk 5 "t1" shopW ciW cartW _ _ _
        (by decide) (by decide) (by decide) rfl).2 "258841234567"
        { conversationID := "AG_1", responseCode := "INS-0",
          responseDescription := "Accepted" } (by decide) rfl
  · exact (c4_mpesa_flow_amended prOk 9 "t3" shopW ciBad cartW _ _ _
        (by decide) (by decide) (by decide) rfl).1 (by decide)

/-- C2: a failure-coded callback for a pending mobile-money order answers
200, moves the order to paymentStatus failed and orderStatus cancelled,
records the callback's result code and description into the provider
correlation fields, and increments each referenced product's stock by that
line's quantity exactly once. -/
theorem c2_failure_callback (st : Store) (cb : Callback) (tpr : String)
    (ord : Order)
    (href : cb.thirdPartyReference = some tpr) (hne : tpr ≠ "")
    (hfind : findOrder st.orders tpr = some ord)
    (_hpm : ord.paymentMethod = .mpesa)
    (_hps : ord.paymentStatus = .pending)
    (hcode : cb.resultCode ≠ some "INS-0") :
    (mpesaCallback st cb).1.status = 200 ∧
    findOrder (mpesaCallback st cb).2.orders tpr =
      some (applyCallback ord cb) ∧
    (applyCallback ord cb).paymentStatus = .failed ∧
    (applyCallback ord cb).orderStatus = .cancelled ∧
    (applyCallback ord cb).mpesaDetails.responseCode = cb.resultCode ∧
    (applyCallback ord cb).mpesaDetails.responseDescription = cb.resultDesc ∧
    ∀ pid, (findProduct st.catalog pid).isSome = true →
      stockOf (mpesaCallback st cb).2.catalog pid =
        stockOf st.catalog pid + lineQty ord.products pid := by
  have hstep : mpesaCallback st cb =
      ({ status := 200, body := some "Callback processado." },
       { catalog := restoreStock st.catalog ord.products,
         orders := updateFirstOrder st.orders tpr
             (fun o => applyCallback o cb) }) := by
    simp only [mpesaCallback, href]
    rw [if_neg hne, hfind]
    simp only []
    rw [if_neg hcode]
  rw [hstep]
  refine ⟨rfl, ?_, ?_, ?_, ?_, ?_, ?_⟩
  · exact findOrder_updateFirstOrder _ _ _ _
      (fun x => applyCallback_ref x cb) hfind
  · simp [applyCallback, hcode]
  · simp [applyCallback, hcode]
  · simp [applyCallback, hcode]
  · simp [applyCallback, hcode]
  · intro pid hp
    exact stockOf_restoreStock _ _ _ hp

/-- Witness for C2: the failure callback `cbFail` on the sample store moves
the pending order to failed/cancelled, records INS-9, and restores the two
reserved units of product 1 (stock 3 back to 5). -/
theorem c2_failure_callback_witness :
    (mpesaCallback shopP cbFail).1.status = 200 ∧
    findOrder (mpesaCallback shopP cbFail).2.orders "REF1" =
      some (applyCallback ordP cbFail) ∧
    (applyCallback ordP cbFail).paymentStatus = .failed ∧
    (applyCallback ordP cbFail).orderStatus = .cancelled ∧
    (applyCallback ordP cbFail).mpesaDetails.responseCode =
      cbFail.resultCode ∧
    (applyCallback ordP cbFail).mpesaDetails.responseDescription =
      cbFail.resultDesc ∧
    stockOf (mpesaCallback shopP cbFail).2.catalog 1 =
      stockOf shopP.catalog 1 + lineQty ordP.products 1 := by
  have h := c2_failure_callback shopP cbFail "REF1" ordP rfl (by decide) rfl
    rfl rfl (by decide)
  exact ⟨h.1, h.2.1, h.2.2.1, h.2.2.2.1, h.2.2.2.2.1, h.2.2.2.2.2.1,
    h.2.2.2.2.2.2 1 rfl⟩

/-- Pending mobile-money order that the admin has already marked shipped. -/
def ordShipped : Order := { ordP with orderStatus := .shipped }

/-- Store holding the pending-but-already-shipped order. -/
def shopShipped : Store :=
  { catalog := [{ id := 1, name := "Perfume A", price := 100, stock := 3 }],
    orders := [ordShipped] }

/-- Counterexample to C6: the success branch assigns orderStatus processing
unconditionally.  A pending order that the admin has already marked shipped
(reachable via the status-update endpoint) is moved back to processing by a
success-coded callback, which the claim rules out. -/
theorem c6_shipped_reset_cex :
    updateOrderStatus shopP 0 "shipped" = (200, shopShipped) ∧
    ordShipped.paymentStatus = .pending ∧
    ordShipped.orderStatus = .shipped ∧
    (mpesaCallback shopShipped cbOk).2.orders.map Order.orderStatus =
      [.processing] ∧
    ¬ ((mpesaCallback shopShipped cbOk).2.orders.map Order.orderStatus =
        [.shipped]) := by
  refine ⟨?_, rfl, rfl, ?_, ?_⟩ <;> decide

/-- C6 (amended): a success-coded callback for a pending mobile-money order
answers 200, sets paymentStatus to paid, sets orderStatus to processing
unconditionally (an order already shipped or delivered is moved back to
processing), and changes no product's stock. -/
theorem c6_success_callback_amended (st : Store) (cb : Callback)
    (tpr : String) (ord : Order)
    (href : cb.thirdPartyReference = some tpr) (hne : tpr ≠ "")
    (hfind : findOrder st.orders tpr = some ord)
    (_hpm : ord.paymentMethod = .mpesa)
    (_hps : ord.paymentStatus = .pending)
    (hcode : cb.resultCode = some "INS-0") :
    (mpesaCallback st cb).1.status = 200 ∧
    findOrder (mpesaCallback st cb).2.orders tpr =
      some (applyCallback ord cb) ∧
    (applyCallback ord cb).paymentStatus = .paid ∧
    (applyCallback ord cb).orderStatus = .processing ∧
    (mpesaCallback st cb).2.catalog = st.catalog := by
  have hstep : mpesaCallback st cb =
      ({ status := 200, body := some "Callback processado." },
       { st with orders := updateFirstOrder st.orders tpr
                              (fun o => applyCallback o cb) }) := by
    simp only [mpesaCallback, href]
    rw [if_neg hne, hfind]
    simp only []
    rw [if_pos hcode]
  rw [hstep]
  exact ⟨rfl,
    findOrder_updateFirstOrder _ _ _ _ (fun x => applyCallback_ref x cb) hfind,
    by simp [applyCallback, hcode], by simp [applyCallback, hcode], rfl⟩

/-- Witness for the amended C6: the success callback on the shipped sample
order answers 200, marks it paid, moves it back to processing, and leaves
the catalog unchanged. -/
theorem c6_success_callback_amended_witness :
    (mpesaCallback shopShipped cbOk).1.status = 200 ∧
    findOrder (mpesaCallback shopShipped cbOk).2.orders "REF1" =
      some (applyCallback ordShipped cbOk) ∧
    (applyCallback ordShipped cbOk).paymentStatus = .paid ∧
    (applyCallback ordShipped cbOk).orderStatus = .processing ∧
    (mpesaCallback shopShipped cbOk).2.catalog = shopShipped.catalog :=
  c6_success_callback_amended shopShipped cbOk "REF1" ordShipped rfl
    (by decide) rfl rfl rfl rfl

/-- Callback carrying a reference no stored order holds. -/
def cbNoOrder : Callback :=
  { thirdPartyReference := some "NOPE", resultCode := some "INS-0",
    resultDesc := none }

/-- Counterexample to C7: a callback whose reference matches no stored
order is answered with HTTP status 404, not 200. -/
theorem c7_not_found_cex :
    (mpesaCallback shopP cbNoOrder).1.status = 404 ∧
    ¬ ((mpesaCallback shopP cbNoOrder).1.status = 200) ∧
    (mpesaCallback shopP cbNoOrder).2 = shopP := by
  refine ⟨rfl, by decide, rfl⟩

/-- C7 (amended): a callback whose reference matches no stored order is
answered with HTTP status 404 and an empty body (no error detail leaks to
the provider), and neither store is modified; a server-error status is
produced only by unexpected internal failure. -/
theorem c7_not_found_amended (st : Store) (cb : Callback) (tpr : String)
    (href : cb.thirdPartyReference = some tpr) (hne : tpr ≠ "")
    (hfind : findOrder st.orders tpr = none) :
    mpesaCallback st cb = ({ status := 404, body := none }, st) := by
  simp only [mpesaCallback, href]
  rw [if_neg hne, hfind]

/-- Witness for the amended C7: the unknown reference NOPE on the sample
store yields status 404 with empty body and an unchanged store. -/
theorem c7_not_found_amended_witness :
    mpesaCallback shopP cbNoOrder = ({ status := 404, body := none }, shopP) :=
  c7_not_found_amended shopP cbNoOrder "NOPE" rfl (by decide) rfl

/-- Counterexample to C3: the callback handler is not idempotent.  After a
first failure-coded callback has moved the order out of pending, delivering
the identical callback again restores the stock a second time: product 1
moves from stock 5 to stock 7, so the duplicate delivery does change the
catalog although the order is no longer pending. -/
theorem c3_duplicate_callback_cex :
    (mpesaCallback shopP cbFail).2.orders.map Order.paymentStatus =
      [.failed] ∧
    stockOf (mpesaCallback shopP cbFail).2.catalog 1 = 5 ∧
    stockOf
        (mpesaCallback (mpesaCallback shopP cbFail).2 cbFail).2.catalog 1 =
      7 ∧
    ¬ ((mpesaCallback (mpesaCallback shopP cbFail).2 cbFail).2 =
        (mpesaCallback shopP cbFail).2) := by
  refine ⟨?_, ?_, ?_, ?_⟩ <;> decide

/-- C3 (amended): duplicate delivery of the same success-coded callback is
idempotent: the second delivery reproduces exactly the same response and
final state, and no stock changes.  Duplicate delivery of the same
failure-coded callback leaves the order store unchanged (the order fields
are overwritten with the same values), but restores the stock once more:
the handler has no pending guard, so stock restoration runs once per
delivery, not at most once per order. -/
theorem c3_callback_idempotence_amended (st : Store) (cb : Callback) :
    (cb.resultCode = some "INS-0" →
      mpesaCallback (mpesaCallback st cb).2 cb = mpesaCallback st cb) ∧
    (∀ tpr ord, cb.thirdPartyReference = some tpr → tpr ≠ "" →
      findOrder st.orders tpr = some ord →
      cb.resultCode ≠ some "INS-0" →
      (mpesaCallback (mpesaCallback st cb).2 cb).2.orders =
        (mpesaCallback st cb).2.orders ∧
      (mpesaCallback (mpesaCallback st cb).2 cb).2.catalog =
        restoreStock (mpesaCallback st cb).2.catalog ord.products) := by
  constructor
  · intro hc
    cases hr : cb.thirdPartyReference with
    | none => simp [mpesaCallback, hr]
    | some tpr =>
      by_cases he : tpr = ""
      · simp [mpesaCallback, hr, he]
      · cases hfind : findOrder st.orders tpr with
        | none => simp [mpesaCallback, hr, he, hfind]
        | some ord =>
          have hstep : mpesaCallback st cb =
              ({ status := 200, body := some "Callback processado." },
               { st with orders := updateFirstOrder st.orders tpr
                                      (fun o => applyCallback o cb) }) := by
            simp only [mpesaCallback, hr]
            rw [if_neg he, hfind]
            simp only []
            rw [if_pos hc]
          have hfind2 : findOrder (updateFirstOrder st.orders tpr
                (fun o => applyCallback o cb)) tpr =
              some (applyCallback ord cb) :=
            findOrder_updateFirstOrder _ _ _ _
              (fun x => applyCallback_ref x cb) hfind
          rw [hstep]
          simp only [mpesaCallback, hr]
          rw [if_neg he]
          simp only [hfind2]
          rw [if_pos hc]
          rw [updateFirstOrder_idem _ _ _ (fun x => applyCallback_ref x cb)
            (fun x => applyCallback_idem x cb)]
  · intro tpr ord hr he hfind hc
    have hstep : mpesaCallback st cb =
        ({ status := 200, body := some "Callback processado." },
         { catalog := restoreStock st.catalog ord.products,
           orders := updateFirstOrder st.orders tpr
                        (fun o => applyCallback o cb) }) := by
      simp only [mpesaCallback, hr]
      rw [if_neg he, hfind]
      simp only []
      rw [if_neg hc]
    have hfind2 : findOrder (updateFirstOrder st.orders tpr
          (fun o => applyCallback o cb)) tpr =
        some (applyCallback ord cb) :=
      findOrder_updateFirstOrder _ _ _ _
        (fun x => applyCallback_ref x cb) hfind
    rw [hstep]
    simp only [mpesaCallback, hr]
    rw [if_neg he]
    simp only [hfind2]
    rw [if_neg hc]
    constructor
    · simp only []
      exact updateFirstOrder_idem _ _ _ (fun x => applyCallback_ref x cb)
        (fun x => applyCallback_idem x cb)
    · simp only [applyCallback_products]

/-- Witness for the amended C3: on the sample store a duplicate success
callback reproduces the same state, and a duplicate failure callback keeps
the order store fixed while restoring the stock of the single line again. -/
theorem c3_callback_idempotence_amended_witness :
    mpesaCallback (mpesaCallback shopP cbOk).2 cbOk =
      mpesaCallback shopP cbOk ∧
    (mpesaCallback (mpesaCallback shopP cbFail).2 cbFail).2.orders =
      (mpesaCallback shopP cbFail).2.orders ∧
    (mpesaCallback (mpesaCallback shopP cbFail).2 cbFail).2.catalog =
      restoreStock (mpesaCallback shopP cbFail).2.catalog ordP.products := by
  refine ⟨(c3_callback_idempotence_amended shopP cbOk).1 rfl, ?_, ?_⟩
  · exact ((c3_callback_idempotence_amended shopP cbFail).2 "REF1" ordP rfl
      (by decide) rfl (by decide)).1
  · exact ((c3_callback_idempotence_amended shopP cbFail).2 "REF1" ordP rfl
      (by decide) rfl (by decide)).2
